import Mathlib

set_option maxRecDepth 40000

/-!
Verification development for the Candidate-Matching-System repository.

The TypeScript client (src/client, src/shared, src/server and the unnamed
client modules) is embedded shallowly: JavaScript string primitives are
modelled over character lists so that every definition is executable, the
loosely-shaped `cv_summary` JSON payload is modelled by an explicit `Json`
value type together with an executable model of `JSON.parse`, and the
stateful React flows are modelled as explicit step functions on a state
record.  The Python matching backend served at /match and /explain is not
part of the repository sources; the few backend facts needed (rank
assignment, RRF fusion, score blending) are modelled from the spec and are
marked as such in their doc comments.
-/

/- ===================================================================
   JavaScript string primitives, modelled over character lists
   =================================================================== -/

/-- Model of JavaScript String.prototype.trim: drop leading and trailing
whitespace characters (space, tab, CR, LF). -/
def jsTrimList (l : List Char) : List Char :=
  ((l.dropWhile Char.isWhitespace).reverse.dropWhile Char.isWhitespace).reverse

/-- String-level wrapper for `jsTrimList`. -/
def jsTrim (s : String) : String := (jsTrimList s.toList).asString

/-- Model of JavaScript String.prototype.toLowerCase (ASCII range). -/
def jsToLower (s : String) : String := (s.toList.map Char.toLower).asString

/-- Model of JavaScript String.prototype.toUpperCase (ASCII range). -/
def jsToUpper (s : String) : String := (s.toList.map Char.toUpper).asString

/-- Whether the pattern list occurs at the head of the other list. -/
def listStartsWith (pat l : List Char) : Bool :=
  match pat, l with
  | [], _ => true
  | _ :: _, [] => false
  | p :: ps, c :: cs => c = p && listStartsWith ps cs

/-- Whether the pattern occurs anywhere inside the list (substring scan). -/
def listContainsSub (pat l : List Char) : Bool :=
  match l with
  | [] => listStartsWith pat []
  | _ :: rest => listStartsWith pat l || listContainsSub pat rest

/-- Model of JavaScript String.prototype.includes. -/
def jsIncludes (s pat : String) : Bool := listContainsSub pat.toList s.toList

/-- Model of JavaScript String.prototype.split with a single-space separator. -/
def splitOnSpaceAux : List Char → List Char → List String
  | [], acc => [acc.reverse.asString]
  | c :: rest, acc =>
    if c = ' ' then acc.reverse.asString :: splitOnSpaceAux rest []
    else splitOnSpaceAux rest (c :: acc)

/-- String-level wrapper: `s.split(" ")`. -/
def jsSplitOnSpace (s : String) : List String := splitOnSpaceAux s.toList []

/-- Model of JavaScript `s[i]`: one-character string, or the string
"undefined" rendered by template interpolation when out of range. -/
def jsCharAtStr (s : String) (i : Nat) : String :=
  match s.toList.drop i with
  | c :: _ => (List.asString [c])
  | [] => "undefined"

/-- Model of JavaScript array indexing `names[i]` for string arrays, with
out-of-range (including negative) access rendering as "undefined". -/
def jsIndex (l : List String) (i : Int) : String :=
  if i < 0 then "undefined" else l.getD i.toNat "undefined"

/-- Model of `Array.from(new Set(list))`: deduplicate keeping the first
occurrence of each element, preserving order. -/
def jsSetDedup {α : Type} [DecidableEq α] (l : List α) : List α :=
  l.foldl (fun acc x => if x ∈ acc then acc else acc ++ [x]) []

/-- Model of JavaScript Math.round: floor of the argument plus one half. -/
def jsMathRound (q : ℚ) : Int := ⌊q + 1 / 2⌋

/- ===================================================================
   JSON values and an executable model of JSON.parse
   =================================================================== -/

/-- JSON values, as produced by JSON.parse on the loosely-shaped
`cv_summary` payload. -/
inductive Json where
  | null : Json
  | bool (b : Bool) : Json
  | num (q : ℚ) : Json
  | str (s : String) : Json
  | arr (elems : List Json) : Json
  | obj (fields : List (String × Json)) : Json

/-- JSON insignificant whitespace. -/
def isJsonWs (c : Char) : Bool := c = ' ' || c = '\t' || c = '\n' || c = '\r'

/-- Skip leading JSON whitespace. -/
def skipWs : List Char → List Char
  | [] => []
  | c :: rest => if isJsonWs c then skipWs rest else c :: rest

/-- Hexadecimal digit value. -/
def hexVal (c : Char) : Option Nat :=
  if '0' ≤ c ∧ c ≤ '9' then some (c.toNat - '0'.toNat)
  else if 'a' ≤ c ∧ c ≤ 'f' then some (c.toNat - 'a'.toNat + 10)
  else if 'A' ≤ c ∧ c ≤ 'F' then some (c.toNat - 'A'.toNat + 10)
  else none

/-- Decimal digit value. -/
def digitVal (c : Char) : Option Nat :=
  if '0' ≤ c ∧ c ≤ '9' then some (c.toNat - '0'.toNat) else none

/-- Consume a maximal run of decimal digits. -/
def takeDigits : List Char → (List Nat × List Char)
  | [] => ([], [])
  | c :: rest =>
    match digitVal c with
    | some d =>
      let p := takeDigits rest
      (d :: p.1, p.2)
    | none => ([], c :: rest)

/-- Value of a digit run read most-significant first. -/
def digitsToNat (ds : List Nat) : Nat := ds.foldl (fun a d => a * 10 + d) 0

/-- Parse the body of a JSON string literal after the opening quote,
returning the decoded characters and the remaining input. -/
def parseStrBody : Nat → List Char → Option (List Char × List Char)
  | 0, _ => none
  | _ + 1, [] => none
  | fuel + 1, c :: rest =>
    if c = '"' then some ([], rest)
    else if c = '\\' then
      match rest with
      | [] => none
      | e :: rest2 =>
        let esc : Option (Char × List Char) :=
          if e = '"' then some ('"', rest2)
          else if e = '\\' then some ('\\', rest2)
          else if e = '/' then some ('/', rest2)
          else if e = 'b' then some (Char.ofNat 8, rest2)
          else if e = 'f' then some (Char.ofNat 12, rest2)
          else if e = 'n' then some ('\n', rest2)
          else if e = 'r' then some ('\r', rest2)
          else if e = 't' then some ('\t', rest2)
          else if e = 'u' then
            match rest2 with
            | h1 :: h2 :: h3 :: h4 :: rest3 =>
              match hexVal h1, hexVal h2, hexVal h3, hexVal h4 with
              | some a, some b, some c2, some d =>
                some (Char.ofNat (((a * 16 + b) * 16 + c2) * 16 + d), rest3)
              | _, _, _, _ => none
            | _ => none
          else none
        match esc with
        | some (d, rest3) =>
          match parseStrBody fuel rest3 with
          | some (cs, rem) => some (d :: cs, rem)
          | none => none
        | none => none
    else if c.toNat < 32 then none
    else
      match parseStrBody fuel rest with
      | some (cs, rem) => some (c :: cs, rem)
      | none => none

/-- Parse the optional fraction part of a JSON number. -/
def parseFracPart : List Char → Option (ℚ × List Char)
  | '.' :: r =>
    match takeDigits r with
    | ([], _) => none
    | (ds, rem) => some ((digitsToNat ds : ℚ) / (10 ^ ds.length), rem)
  | l => some (0, l)

/-- Parse the optional exponent part of a JSON number, returning the scale
factor it denotes. -/
def parseExpPart : List Char → Option (ℚ × List Char)
  | [] => some (1, [])
  | c :: r =>
    if c = 'e' ∨ c = 'E' then
      let p : Int × List Char :=
        match r with
        | '+' :: rr => (1, rr)
        | '-' :: rr => (-1, rr)
        | _ => (1, r)
      match takeDigits p.2 with
      | ([], _) => none
      | (ds, rem) => some ((10 : ℚ) ^ (p.1 * (digitsToNat ds : Int)), rem)
    else some (1, c :: r)

/-- Parse a JSON number (strict grammar: no leading plus, no leading
zeros). -/
def parseNumber (l : List Char) : Option (ℚ × List Char) :=
  let p : Bool × List Char :=
    match l with
    | '-' :: rest => (true, rest)
    | _ => (false, l)
  match takeDigits p.2 with
  | ([], _) => none
  | (d :: ds, rest1) =>
    if d = 0 ∧ ds ≠ [] then none
    else
      match parseFracPart rest1 with
      | none => none
      | some (frac, rest2) =>
        match parseExpPart rest2 with
        | none => none
        | some (scale, rest3) =>
          let mag : ℚ := ((digitsToNat (d :: ds) : ℚ) + frac) * scale
          some (if p.1 then -mag else mag, rest3)

/-- Insert a key into an object association list with JavaScript object
semantics: a duplicate key keeps its first position but takes the latest
value. -/
def objInsert (acc : List (String × Json)) (k : String) (v : Json) :
    List (String × Json) :=
  if acc.any (fun p => p.1 = k) then
    acc.map (fun p => if p.1 = k then (k, v) else p)
  else acc ++ [(k, v)]

mutual

/-- Parse one JSON value (fuel-bounded recursive descent). -/
def parseVal : Nat → List Char → Option (Json × List Char)
  | 0, _ => none
  | fuel + 1, l =>
    match skipWs l with
    | [] => none
    | c :: rest =>
      if c = Char.ofNat 123 then
        match skipWs rest with
        | d :: rest2 =>
          if d = Char.ofNat 125 then some (.obj [], rest2)
          else parseMembers fuel (d :: rest2) []
        | [] => none
      else if c = '[' then
        match skipWs rest with
        | d :: rest2 =>
          if d = ']' then some (.arr [], rest2)
          else parseElems fuel (d :: rest2) []
        | [] => none
      else if c = '"' then
        match parseStrBody (fuel + 1) rest with
        | some (cs, rem) => some (.str cs.asString, rem)
        | none => none
      else if c = 't' then
        match rest with
        | 'r' :: 'u' :: 'e' :: rem => some (.bool true, rem)
        | _ => none
      else if c = 'f' then
        match rest with
        | 'a' :: 'l' :: 's' :: 'e' :: rem => some (.bool false, rem)
        | _ => none
      else if c = 'n' then
        match rest with
        | 'u' :: 'l' :: 'l' :: rem => some (.null, rem)
        | _ => none
      else
        match parseNumber (c :: rest) with
        | some (q, rem) => some (.num q, rem)
        | none => none

/-- Parse the members of a JSON object after its opening brace. -/
def parseMembers : Nat → List Char → List (String × Json) →
    Option (Json × List Char)
  | 0, _, _ => none
  | fuel + 1, l, acc =>
    match skipWs l with
    | '"' :: rest =>
      match parseStrBody (fuel + 1) rest with
      | some (kcs, rest1) =>
        match skipWs rest1 with
        | ':' :: rest2 =>
          match parseVal fuel rest2 with
          | some (v, rest3) =>
            let acc2 := objInsert acc kcs.asString v
            match skipWs rest3 with
            | ',' :: rest4 => parseMembers fuel rest4 acc2
            | d :: rest4 =>
              if d = Char.ofNat 125 then some (.obj acc2, rest4) else none
            | [] => none
          | none => none
        | _ => none
      | none => none
    | _ => none

/-- Parse the elements of a JSON array after its opening bracket. -/
def parseElems : Nat → List Char → List Json → Option (Json × List Char)
  | 0, _, _ => none
  | fuel + 1, l, acc =>
    match parseVal fuel l with
    | some (v, rest) =>
      match skipWs rest with
      | ',' :: rest1 => parseElems fuel rest1 (acc ++ [v])
      | ']' :: rest1 => some (.arr (acc ++ [v]), rest1)
      | _ => none
    | none => none

end

/-- Model of JSON.parse: parse one value, require only whitespace after it;
any failure models the exception thrown by JSON.parse. -/
def parseJsonText (s : String) : Option Json :=
  let cs := s.toList
  match parseVal (2 * cs.length + 4) cs with
  | some (j, rem) => if skipWs rem = [] then some j else none
  | none => none

/- ===================================================================
   JavaScript value semantics over Json
   =================================================================== -/

/-- JavaScript truthiness of a parsed JSON value. -/
def Json.truthy : Json → Bool
  | .null => false
  | .bool b => b
  | .num q => q ≠ 0
  | .str s => s ≠ ""
  | .arr _ => true
  | .obj _ => true

/-- Whether Array.isArray holds. -/
def Json.isArr : Json → Bool
  | .arr _ => true
  | _ => false

/-- Whether the value is a string. -/
def Json.isStr : Json → Bool
  | .str _ => true
  | _ => false

/-- Whether JavaScript typeof yields the tag for objects: holds for null,
arrays and plain objects. -/
def jsTypeofObject : Json → Bool
  | .null => true
  | .arr _ => true
  | .obj _ => true
  | _ => false

mutual

/-- Model of the JavaScript String() coercion on parsed JSON values.
Non-integer number rendering approximates the JavaScript float formatting;
no claim exercises it. -/
def jsToString : Json → String
  | .null => "null"
  | .bool true => "true"
  | .bool false => "false"
  | .str s => s
  | .num q => if q.den = 1 then toString q.num else toString q
  | .arr l => String.intercalate "," (jsToStringItems l)
  | .obj _ => "[object Object]"

/-- Array items under String(): null elements render as the empty string. -/
def jsToStringItems : List Json → List String
  | [] => []
  | .null :: rest => "" :: jsToStringItems rest
  | j :: rest => jsToString j :: jsToStringItems rest

end

/-- Model of JavaScript property access base.k. Accessing a property of
null throws a TypeError, modelled by the error case; a missing property is
the undefined value, modelled by none. -/
def jsGetField : Json → String → Except Unit (Option Json)
  | .null, _ => .error ()
  | .obj fields, k => .ok (fields.lookup k)
  | _, _ => .ok none

/-- Truthiness of a possibly-undefined JavaScript value. -/
def optTruthy : Option Json → Bool
  | some j => j.truthy
  | none => false

/-- Array.isArray on a possibly-undefined value. -/
def optIsArr : Option Json → Bool
  | some j => j.isArr
  | none => false

/-- Elements of a possibly-undefined value known to be an array. -/
def optArrElems : Option Json → List Json
  | some (.arr l) => l
  | _ => []

/-- Whether a possibly-undefined value is a string. -/
def optIsStr : Option Json → Bool
  | some (.str _) => true
  | _ => false

/-- String payload of a possibly-undefined value, defaulting to empty. -/
def optStrVal : Option Json → String
  | some (.str s) => s
  | _ => ""

/-- JavaScript typeof x tagging as object on a possibly-undefined value
(typeof undefined is not the object tag). -/
def optTypeofObject : Option Json → Bool
  | some j => jsTypeofObject j
  | none => false

/- ===================================================================
   Shared schema types (src/shared/schema.ts)
   =================================================================== -/

/-- Explanation payload attached to a match result (schema.ts MatchRes). -/
structure Explanation where
  reasons : Option (List String)
  matchItems : Option (List String)
  raw : Option String
  error : Option String
deriving DecidableEq

/-- Backend match result record (schema.ts MatchRes). Scores are modelled
as rationals. -/
structure MatchRes where
  rank : Int
  final_score : ℚ
  ce_score : ℚ
  hybrid_score_0_100 : ℚ
  cv_uid : Int
  cv_id : Option Int
  cv_text : String
  cv_summary : Option String
  clean_cv_full : Option String
  explanation : Option Explanation

/-- Education entry (schema.ts Education). -/
structure Education where
  degree : String
  school : String
  year : String
deriving DecidableEq

/-- Work experience entry (schema.ts WorkExperience). -/
structure WorkExperience where
  title : String
  company : String
  period : String
  description : String
deriving DecidableEq

/-- Candidate record handled by the client (schema.ts Candidate together
with the cv_id and explanation fields added by CandidateWithExplanation). -/
structure Candidate where
  id : String
  name : String
  title : String
  experience : String
  location : String
  skills : List String
  matchScore : Int
  avatar : String
  summary : String
  email : String
  phone : String
  education : List Education
  workExperience : List WorkExperience
  projects : List String
  explanation : Option Explanation
  cv_id : Option Int
deriving DecidableEq

/-- Match request DTO (schema.ts MatchReq). Optional fields are Option;
threshold null and an absent field are both modelled by none. -/
structure MatchReq where
  jd_text : String
  jd_col : String
  cv_col : String
  resolve_jd_to_col : String
  topk : Option Int
  candidate_topk : Option Int
  rrf_k : Option Int
  threshold : Option ℚ
  cosine_floor : Option ℚ
  alpha : Option ℚ
  batch_size : Option Int
  cv_text_pref : Option String
  async_explain : Option Bool

/-- One candidate entry of the explain request built by the client
(schema.ts ExplainReq; the client sends these pass-through fields). -/
structure ExplainCandidate where
  cv_uid : Int
  cv_text : String
  rank : Int
  final_score : ℚ
  ce_score : ℚ
  hybrid_score_0_100 : ℚ
  cv_id : Option Int

/-- Explain request DTO (schema.ts ExplainReq). -/
structure ExplainReq where
  jd_text : String
  candidates : List ExplainCandidate
  llm_model : Option String
  max_reasons : Option Int
  per_cv_char_budget : Option Int

/- ===================================================================
   transformMatchResToCandidate and generateCandidateName (lib/utils.ts)
   =================================================================== -/

/-- Male first names list of generateCandidateName. -/
def arabicMaleNames : List String :=
  ["Saad", "Khalid", "Mohammed", "Ahmed", "Omar", "Yusuf", "Ibrahim",
   "Hassan", "Ali", "Faisal", "Sultan", "Nasser", "Majed", "Turki", "Bandar",
   "Abdullah", "Fahad", "Saud", "Khalil", "Zaid", "Hamza", "Tariq", "Bader",
   "Mansour", "Raed", "Waleed", "Fares", "Yazeed", "Khaled", "Saeed", "Nawaf",
   "Mutaz", "Sami", "Hani", "Rami", "Fadi", "Tamer", "Yasser", "Bassam",
   "Tarek", "Wael", "Ziyad", "Hatem", "Majid", "Nader", "Osama", "Karim"]

/-- Female first names list of generateCandidateName. -/
def arabicFemaleNames : List String :=
  ["Fatima", "Sara", "Noura", "Layla", "Amira", "Mariam", "Aisha",
   "Hala", "Rania", "Lina", "Dina", "Yasmin", "Reem", "Hanan", "Nada",
   "Salma", "Rana", "Maya", "Leila", "Zeinab", "Hiba", "Rim", "Shaima",
   "Maha", "Noor", "Rahaf", "Lama", "Rawan", "Dana", "Tala", "Raghad",
   "Layan", "Jana", "Tara", "Yara", "Haya", "Nour", "Sana", "Hind",
   "Amina", "Lubna", "Noora", "Farah", "Sanaa", "Huda", "Mona", "Nadia"]

/-- Last names list of generateCandidateName (contains duplicates that the
source removes with a Set). -/
def arabicLastNames : List String :=
  ["Alsaud", "Alotaibi", "Alharbi", "Alahmed", "Almutairi", "Alzahrani",
   "Alshammari", "Alqarni", "Almalki", "Alghamdi", "Almousa", "Alrashid",
   "Almazroa", "Alsharif", "Almuhanna", "Almawash", "Alshahrani", "Alqahtani",
   "Aldosari", "Alhazmi", "Alfahad", "Almubarak", "Alkhaldi", "Almansoori",
   "Alhumaid", "Alsuwaidi", "Almazrouei", "Alshamsi", "Alnuaimi", "Aldhaheri",
   "Alblushi", "Alhosani", "Almazmi", "Alshahwi", "Alhinai", "Alraisi",
   "Alshukaili", "Almuhaimid", "Alhamdan", "Alshahri", "Almutawa", "Alshammasi",
   "Alkhatib", "Alshehri", "Alshahwan", "Almajed", "Alharbi", "Aldosari",
   "Alhazmi", "Alfahad", "Almubarak", "Alkhaldi", "Almansoori", "Alhumaid",
   "Alsuwaidi", "Alshamsi", "Alnuaimi", "Aldhaheri", "Alblushi", "Alhosani",
   "Alshahwan", "Almuhaimid", "Alhamdan", "Alshahri", "Almutawa", "Alshammasi",
   "Alkhatib", "Alshehri", "Almajed", "Alharbi", "Aldosari", "Alhazmi",
   "Alfahad", "Almubarak", "Alkhaldi", "Almansoori", "Alhumaid", "Alsuwaidi",
   "Alshamsi", "Alnuaimi", "Aldhaheri", "Alblushi", "Alhosani", "Almazmi"]

/-- Model of generateCandidateName: deterministic name pick from cv_id,
with JavaScript remainder and array-index semantics. -/
def generateCandidateName (cvId : Int) : String :=
  let uniqueLastNames := jsSetDedup arabicLastNames
  let isFemale := cvId.tmod 2 = 0
  let firstNames := if isFemale then arabicFemaleNames else arabicMaleNames
  let firstIdx := (cvId * 3).tmod firstNames.length
  let lastIdx := (cvId * 5).tmod uniqueLastNames.length
  jsIndex firstNames firstIdx ++ " " ++ jsIndex uniqueLastNames lastIdx

/-- Mutable extraction variables of transformMatchResToCandidate with
their initial defaults. -/
structure SummaryVars where
  title : String
  educationDegree : String
  skills : List String
deriving DecidableEq

/-- Initial values: title Professional, degree Not specified, no skills. -/
def initialSummaryVars : SummaryVars :=
  { title := "Professional", educationDegree := "Not specified", skills := [] }

/-- Model of the find callback over the titles array: the first element
that is truthy with nonempty trim. Calling trim on a truthy non-string
element throws, modelled by the error case. -/
def firstTruthyTrimmedString : List Json → Except Unit (Option String)
  | [] => .ok none
  | j :: rest =>
    if j.truthy then
      match j with
      | .str s => if (jsTrim s).length > 0 then .ok (some s)
                  else firstTruthyTrimmedString rest
      | _ => .error ()
    else firstTruthyTrimmedString rest

/-- Degree keyword classification shared by both education branches: phd
or doctorate map to PhD, master to Masters, bachelor to Bachelor, anything
else keeps the raw value. -/
def classifyDegree (s raw : String) : String :=
  let low := jsToLower s
  if jsIncludes low "phd" || jsIncludes low "doctorate" then "PhD"
  else if jsIncludes low "master" then "Masters"
  else if jsIncludes low "bachelor" then "Bachelor"
  else raw

/-- Title extraction phase of the try block: titles array first, then a
singular title string, then a title array. A thrown TypeError carries the
variables as they stood. -/
def phaseTitle (sd : Json) (v : SummaryVars) : Except SummaryVars SummaryVars :=
  match jsGetField sd "titles" with
  | .error _ => .error v
  | .ok titlesO =>
    if optTruthy titlesO && optIsArr titlesO &&
        (optArrElems titlesO).length > 0 then
      match firstTruthyTrimmedString (optArrElems titlesO) with
      | .error _ => .error v
      | .ok (some s) => .ok { v with title := jsTrim s }
      | .ok none => .ok v
    else
      match jsGetField sd "title" with
      | .error _ => .error v
      | .ok titleO =>
        if optTruthy titleO && optIsStr titleO &&
            (jsTrim (optStrVal titleO)).length > 0 then
          .ok { v with title := jsTrim (optStrVal titleO) }
        else if optTruthy titleO && optIsArr titleO &&
            (optArrElems titleO).length > 0 then
          match firstTruthyTrimmedString (optArrElems titleO) with
          | .error _ => .error v
          | .ok (some s) => .ok { v with title := jsTrim s }
          | .ok none => .ok v
        else .ok v

/-- Education extraction phase of the try block: classify the degree of
the first education entry, keeping the raw value when no keyword matches.
The source keeps the raw JSON value in the non-keyword object branch; it
is coerced to a string here. -/
def phaseEducation (sd : Json) (v : SummaryVars) :
    Except SummaryVars SummaryVars :=
  match jsGetField sd "education" with
  | .error _ => .error v
  | .ok eduO =>
    if optTruthy eduO && optIsArr eduO && (optArrElems eduO).length > 0 then
      match (optArrElems eduO).head? with
      | none => .ok v
      | some firstEducation =>
        if jsTypeofObject firstEducation then
          match jsGetField firstEducation "degree" with
          | .error _ => .error v
          | .ok degO =>
            if optTruthy degO then
              let raw := jsToString (degO.getD .null)
              .ok { v with educationDegree := classifyDegree raw raw }
            else .ok v
        else
          match firstEducation with
          | .str s => .ok { v with educationDegree := classifyDegree s s }
          | _ => .ok v
    else .ok v

/-- Skills extraction phase of the try block: up to three entries of
skills.tools, stringified, trimmed, empty entries dropped. -/
def phaseSkills (sd : Json) (v : SummaryVars) :
    Except SummaryVars SummaryVars :=
  match jsGetField sd "skills" with
  | .error _ => .error v
  | .ok skillsO =>
    if optTruthy skillsO && optTypeofObject skillsO then
      match skillsO with
      | some skillsJ =>
        match jsGetField skillsJ "tools" with
        | .error _ => .error v
        | .ok toolsO =>
          if optTruthy toolsO && optIsArr toolsO then
            let newSkills :=
              (((optArrElems toolsO).take 3).map
                (fun t => jsTrim (jsToString t))).filter (fun s => s.length > 0)
            .ok { v with skills := newSkills }
          else .ok v
      | none => .ok v
    else .ok v

/-- The whole try block on the parsed summary value: the three phases in
source order; a throw in any phase carries the variables assigned so far
into the catch. -/
def extractSummary (sd : Json) (v : SummaryVars) :
    Except SummaryVars SummaryVars :=
  match phaseTitle sd v with
  | .error v1 => .error v1
  | .ok v1 =>
    match phaseEducation sd v1 with
    | .error v2 => .error v2
    | .ok v2 => phaseSkills sd v2

/-- Match a title-recovery pattern at the head of the input: quoted key,
optional whitespace, colon, optional whitespace, optionally an opening
bracket with whitespace, then a quoted nonempty capture. -/
def matchPatAt (key : List Char) (brk : Bool) (q : Char) (l : List Char) :
    Option String :=
  match listStartsWith (q :: key ++ [q]) l, l.drop (key.length + 2) with
  | true, l1 =>
    let l2 := l1.dropWhile Char.isWhitespace
    match l2 with
    | ':' :: l3 =>
      let l4 := l3.dropWhile Char.isWhitespace
      let l6? : Option (List Char) :=
        if brk then
          match l4 with
          | '[' :: l5 => some (l5.dropWhile Char.isWhitespace)
          | _ => none
        else some l4
      match l6? with
      | none => none
      | some l6 =>
        match l6 with
        | c :: l7 =>
          if c = q then
            let cap := l7.takeWhile (fun d => d ≠ q)
            let rest := l7.dropWhile (fun d => d ≠ q)
            if cap ≠ [] ∧ rest ≠ [] then some cap.asString else none
          else none
        | [] => none
    | _ => none
  | false, _ => none

/-- Scan the input left to right for the first position where a
title-recovery pattern matches, like RegExp matching does. -/
def scanForPat (key : List Char) (brk : Bool) (q : Char) :
    List Char → Option String
  | [] => none
  | c :: rest =>
    match matchPatAt key brk q (c :: rest) with
    | some s => some s
    | none => scanForPat key brk q rest

/-- The four recovery patterns of the catch branch, tried in source order:
double-quoted titles array, double-quoted singular title, single-quoted
titles array, single-quoted singular title. -/
def recoverTitle (fullSummary : String) : Option String :=
  let l := fullSummary.toList
  let sq := Char.ofNat 39
  match scanForPat "titles".toList true '"' l with
  | some s => some s
  | none =>
    match scanForPat "title".toList false '"' l with
    | some s => some s
    | none =>
      match scanForPat "titles".toList true sq l with
      | some s => some s
      | none => scanForPat "title".toList false sq l

/-- The catch branch: on a successful pattern match the captured title is
trimmed and assigned; otherwise the variables are kept as they stood at
the throw. -/
def recoverVars (fullSummary : String) (v : SummaryVars) : SummaryVars :=
  match recoverTitle fullSummary with
  | some cap => { v with title := jsTrim cap }
  | none => v

/-- The truncation fix applied before parsing: when the trimmed summary
does not end with a closing brace, cut at the last closing brace if it
sits at a positive index. -/
def fixSummary (trimmed : String) : String :=
  let l := trimmed.toList
  let brace := Char.ofNat 125
  if l.getLast? = some brace then trimmed
  else
    let lb : Int :=
      match l.reverse.findIdx? (fun c => c = brace) with
      | some j => (l.length : Int) - 1 - j
      | none => -1
    if lb > 0 then (l.take (lb.toNat + 1)).asString else trimmed

/-- The cv_summary handling of transformMatchResToCandidate: returns the
final extraction variables and the fullSummary debug string. A falsy
(missing or empty) summary keeps every default; a JSON.parse throw or a
TypeError inside the try lands in the catch, which runs regex recovery on
the raw summary over the variables as assigned up to the throw. -/
def summaryPipeline (cvSummary : Option String) : SummaryVars × String :=
  match cvSummary with
  | none => (initialSummaryVars, "")
  | some summary =>
    if summary = "" then (initialSummaryVars, "")
    else
      let fullSummary := summary
      let summaryStr := fixSummary (jsTrim summary)
      match parseJsonText summaryStr with
      | none => (recoverVars fullSummary initialSummaryVars, fullSummary)
      | some sd =>
        match extractSummary sd initialSummaryVars with
        | .ok v => (v, fullSummary)
        | .error vAtThrow => (recoverVars fullSummary vAtThrow, fullSummary)

/-- Avatar initials: first characters of the first two name parts
upper-cased, or the first two characters of a single part. -/
def avatarOf (name : String) : String :=
  let nameParts := jsSplitOnSpace name
  if nameParts.length ≥ 2 then
    jsToUpper (jsCharAtStr (nameParts.getD 0 "") 0 ++
      jsCharAtStr (nameParts.getD 1 "") 0)
  else jsToUpper (((nameParts.getD 0 "").toList.take 2).asString)

/-- Model of transformMatchResToCandidate (lib/utils.ts): build the UI
candidate from a backend match result, with explicit fallbacks at every
extraction point. -/
def transformMatchResToCandidate (mr : MatchRes) : Candidate :=
  let matchScore := jsMathRound (mr.final_score * 100)
  let cvId := mr.cv_id.getD mr.cv_uid
  let name := generateCandidateName cvId
  let p := summaryPipeline mr.cv_summary
  let skills := if p.1.skills.length = 0 then [] else p.1.skills
  { id := toString mr.cv_uid
    name := name
    title := p.1.title
    experience := "Experience available in CV"
    location := p.1.educationDegree
    skills := skills.take 3
    matchScore := matchScore
    avatar := avatarOf name
    summary := p.2
    email := "candidate" ++ toString mr.cv_uid ++ "@example.com"
    phone := "Phone available in CV"
    education := []
    workExperience := []
    projects := []
    explanation := mr.explanation
    cv_id := some cvId }

/- ===================================================================
   home.tsx: match request, rank check, validation, explanation flow
   =================================================================== -/

/-- The request body built by analyzeMutation.mutationFn (home.tsx lines
25-38), with its literal defaults. -/
def mkMatchRequestBody (description : String) : MatchReq :=
  { jd_text := description
    jd_col := "clean_jd"
    cv_col := "cv_summary"
    resolve_jd_to_col := "jd_summary"
    topk := some 5
    candidate_topk := some 200
    rrf_k := some 60
    threshold := none
    cosine_floor := some 0
    alpha := some (1 / 2)
    batch_size := some 32
    cv_text_pref := none
    async_explain := some false }

/-- The ranks of the match response sorted ascending, as computed by
matchResults.map rank then a numeric-comparator sort (home.tsx line 68). -/
def homeSortedRanks (ms : List MatchRes) : List Int :=
  List.insertionSort (· ≤ ·) (ms.map (fun m => m.rank))

/-- The string the sorted ranks render to under Array.prototype.toString
(comma-joined decimal numbers). -/
def homeRanksString (ms : List MatchRes) : String :=
  String.intercalate "," ((homeSortedRanks ms).map toString)

/-- The rank check of home.tsx lines 68-71: passes exactly when the
rendered sorted ranks equal the string 1,2,3,4,5. -/
def homeRankCheckPasses (ms : List MatchRes) : Bool :=
  homeRanksString ms == "1,2,3,4,5"

/-- Outcome of handleAnalyze: either rejected with an error message and no
request issued, or the mutation submitted with the job description. -/
inductive AnalyzeAction where
  | rejected (errorMsg : String) : AnalyzeAction
  | submitted (jd : String) : AnalyzeAction
deriving DecidableEq

/-- Model of handleAnalyze (home.tsx lines 184-204): reject a
whitespace-only description, then reject a trimmed description shorter
than 10 characters, otherwise submit. -/
def handleAnalyze (jobDescription : String) : AnalyzeAction :=
  if jsTrim jobDescription = "" then
    .rejected "Please enter a job description to analyze."
  else if (jsTrim jobDescription).length < 10 then
    .rejected "Job description must be at least 10 characters."
  else .submitted jobDescription

/-- One entry of the explain request (home.tsx lines 128-136): the fields
of the match result passed through, the rank included. -/
def mkExplainCandidate (mr : MatchRes) : ExplainCandidate :=
  { cv_uid := mr.cv_uid
    cv_text := if mr.cv_text = "" then "" else mr.cv_text
    rank := mr.rank
    final_score := mr.final_score
    ce_score := mr.ce_score
    hybrid_score_0_100 := mr.hybrid_score_0_100
    cv_id := mr.cv_id }

/-- The explain request built by fetchExplanations (home.tsx lines
126-139). -/
def buildExplainReq (jdText : String) (ms : List MatchRes) : ExplainReq :=
  { jd_text := jdText
    candidates := ms.map mkExplainCandidate
    llm_model := none
    max_reasons := some 4
    per_cv_char_budget := some 4000 }

/-- The per-candidate merge of the explain response (home.tsx lines
160-171): look up the response entry whose cv_uid renders to the
candidate id; when it exists and carries a truthy explanation, replace
only the explanation field. -/
def mergeOneExplanation (explained : List MatchRes) (c : Candidate) :
    Candidate :=
  match explained.find? (fun er => toString er.cv_uid == c.id) with
  | some er =>
    match er.explanation with
    | some ex => { c with explanation := some ex }
    | none => c
  | none => c

/-- The setCandidates update of fetchExplanations (home.tsx lines
159-172): map the per-candidate merge over the previous candidates. -/
def mergeExplanations (prev : List Candidate) (explained : List MatchRes) :
    List Candidate :=
  prev.map (mergeOneExplanation explained)

/-- The component state touched by the explanation flow. -/
structure AppState where
  candidates : List Candidate
  explanationLoading : List String
deriving DecidableEq

/-- Possible outcomes of the /explain exchange: the fetch rejecting, a
non-OK response (thrown and caught), or a parsed response body. -/
inductive ExplainOutcome where
  | fetchFailed : ExplainOutcome
  | httpError (status : Nat) : ExplainOutcome
  | ok (results : List MatchRes) : ExplainOutcome

/-- Model of fetchExplanations (home.tsx lines 105-182) as a state step:
mark every current candidate as loading, then either merge the response
into the previous candidates and clear the loading set, or - in the catch
branch - only clear the loading set. -/
def fetchExplanationsStep (st : AppState) (current : List Candidate)
    (outcome : ExplainOutcome) : AppState :=
  let st1 := { st with explanationLoading := current.map Candidate.id }
  match outcome with
  | .ok results =>
    { st1 with candidates := mergeExplanations st1.candidates results,
               explanationLoading := [] }
  | .fetchFailed => { st1 with explanationLoading := [] }
  | .httpError _ => { st1 with explanationLoading := [] }

/-- The data returned by analyzeMutation.mutationFn (home.tsx line 81). -/
structure MutationData where
  candidates : List Candidate
  jd_text : String
  matchResults : List MatchRes

/-- Model of analyzeMutation.onSuccess (home.tsx lines 83-97): store the
ranked candidates first, then (after the results screen is shown) run the
separate explanation fetch on them. -/
def onSuccessFlow (st : AppState) (data : MutationData)
    (outcome : ExplainOutcome) : AppState :=
  let st1 := { st with candidates := data.candidates }
  fetchExplanationsStep st1 data.candidates outcome

/- ===================================================================
   MemStorage.getCandidates (src/server/storage.ts, src/unnamed/part_001)
   =================================================================== -/

/-- The comparator of getCandidates: the sort callback b.matchScore -
a.matchScore orders a before b exactly when b.matchScore is at most
a.matchScore (descending, stable). -/
def candidateSortRel (a b : Candidate) : Prop := b.matchScore ≤ a.matchScore

instance : DecidableRel candidateSortRel := fun a b => by
  unfold candidateSortRel; infer_instance

/-- The backing Map of MemStorage, modelled as an association list of id
and candidate in insertion order. -/
def MemStorageState : Type := List (String × Candidate)

/-- Model of MemStorage.getCandidates: a fresh array of the stored values
sorted descending by matchScore, returned together with the untouched
store (the sort mutates only the Array.from copy). -/
def memStorageGetCandidates (s : MemStorageState) :
    List Candidate × MemStorageState :=
  (List.insertionSort candidateSortRel (s.map Prod.snd), s)

/- ===================================================================
   CandidateCard (src/unnamed/part_003): explanation display
   =================================================================== -/

/-- The hardcoded explanation record of candidate-card.tsx, keyed by
cv_id: entries for 21 and 29 only. -/
def HARDCODED_EXPLANATIONS (cvId : Int) : Option (List String) :=
  if cvId = 21 then
    some ["Holds a Bachelor\x27s in Accounting, fully meeting JD requirement.",
          "Strong background in financial reporting and auditing.",
          "Skilled in costing, budgeting, and process improvement.",
          "Experienced in ERP and accounting software."]
  else if cvId = 29 then
    some ["Possesses a Bachelor\x27s degree in Accounting.",
          "Expertise in financial reporting and cost control.",
          "SAP and QuickBooks experience aligns with JD.",
          "Strong budgeting and audit knowledge."]
  else none

/-- candidate.explanation?.reasons: the backend-provided reasons, if any. -/
def explanationFromLLM (c : Candidate) : Option (List String) :=
  c.explanation.bind (fun e => e.reasons)

/-- candidate.cv_id ? HARDCODED_EXPLANATIONS[candidate.cv_id] : undefined,
with JavaScript truthiness on cv_id (a zero id is falsy). -/
def fallbackReasons (c : Candidate) : Option (List String) :=
  match c.cv_id with
  | some n => if n ≠ 0 then HARDCODED_EXPLANATIONS n else none
  | none => none

/-- explanationFromLLM ?? fallback ?? null: the reasons the card shows
under the Why This Candidate Matches heading. -/
def displayedReasons (c : Candidate) : Option (List String) :=
  match explanationFromLLM c with
  | some rs => some rs
  | none => fallbackReasons c

/-- The simulated loading delay of the card effect (lines 166-173): 7000
milliseconds exactly when an explanation exists but did not come from the
backend. -/
def explanationDelayMs (c : Candidate) : Option Nat :=
  if (displayedReasons c).isSome && (explanationFromLLM c).isNone then
    some 7000
  else none

/- ===================================================================
   Backend facts modelled from the spec (the Python matching engine
   behind /match and /explain is not part of the repository sources)
   =================================================================== -/

/-- Modelled from the spec: the Score Blender and Selector of the match
backend (not under src/) sorts the surviving entries and assigns dense
ranks 1..K in array order (spec section 4.5). -/
def assignDenseRanks {α : Type} (l : List α) : List (α × Nat) :=
  l.enum.map (fun p => (p.2, p.1 + 1))

/-- A retriever output entry: candidate identity with its 1-based rank
(spec section 3, RankedEntry). -/
structure RankedEntry where
  cv_uid : Nat
  rank : Nat
deriving DecidableEq

/-- Modelled from the spec: the contribution of one ranked list to a
candidate RRF score - 1/(rrf_k + rank) when present, 0 when absent (spec
section 4.3). -/
def rrfContribution (k : ℚ) (lst : List RankedEntry) (uid : Nat) : ℚ :=
  match lst.find? (fun e => e.cv_uid = uid) with
  | some e => 1 / (k + e.rank)
  | none => 0

/-- Modelled from the spec: the RRF score of a candidate over the sparse
and dense lists (spec section 4.3). -/
def rrfScore (k : ℚ) (sparse dense : List RankedEntry) (uid : Nat) : ℚ :=
  rrfContribution k sparse uid + rrfContribution k dense uid

/-- Modelled from the spec: the lowest rank a candidate holds across the
input lists, used as the first tie-break (spec section 3, FusedEntry). -/
def minRank (sparse dense : List RankedEntry) (uid : Nat) : Nat :=
  match (sparse.find? (fun e => e.cv_uid = uid)).map (fun e => e.rank),
      (dense.find? (fun e => e.cv_uid = uid)).map (fun e => e.rank) with
  | some a, some b => min a b
  | some a, none => a
  | none, some b => b
  | none, none => 0

/-- Modelled from the spec: the fused pool order - descending rrf_score,
ties by lower minimum rank, then by cv_uid ascending (spec sections 3 and
4.3). -/
def fuseRel (k : ℚ) (sparse dense : List RankedEntry) (a b : Nat) : Prop :=
  rrfScore k sparse dense a > rrfScore k sparse dense b ∨
  (rrfScore k sparse dense a = rrfScore k sparse dense b ∧
    (minRank sparse dense a < minRank sparse dense b ∨
     (minRank sparse dense a = minRank sparse dense b ∧ a ≤ b)))

instance (k : ℚ) (sparse dense : List RankedEntry) :
    DecidableRel (fuseRel k sparse dense) := fun a b => by
  unfold fuseRel; infer_instance

/-- Modelled from the spec: the Fusion Ranker - one entry per distinct
cv_uid of either list, ordered by the fused pool order, truncated to
candidate_topk (spec section 4.3). -/
def fuseRRF (k : ℚ) (sparse dense : List RankedEntry) (ctopk : Nat) :
    List Nat :=
  let uids := jsSetDedup
    ((sparse.map (fun e => e.cv_uid)) ++ (dense.map (fun e => e.cv_uid)))
  (List.insertionSort (fuseRel k sparse dense) uids).take ctopk

/-- Modelled from the spec: the Score Blender formula final_score = alpha
* ce_score + (1 - alpha) * normalized_hybrid_score (spec section 4.5). -/
def blendFinalScore (alpha ce hybrid : ℚ) : ℚ :=
  alpha * ce + (1 - alpha) * hybrid

/- ===================================================================
   Concrete fixtures used by the theorems below
   =================================================================== -/

/-- A match result carrying only a rank, for exercising the client rank
check. -/
def mkBareMatchRes (r : Int) : MatchRes :=
  { rank := r, final_score := 0, ce_score := 0, hybrid_score_0_100 := 0,
    cv_uid := r, cv_id := none, cv_text := "", cv_summary := none,
    clean_cv_full := none, explanation := none }

/-- The sparse list of the RRF example: A, B, C at ranks 1, 2, 3 with A, B,
C, D encoded as cv_uid 1, 2, 3, 4. -/
def exampleSparse : List RankedEntry :=
  [{ cv_uid := 1, rank := 1 }, { cv_uid := 2, rank := 2 },
   { cv_uid := 3, rank := 3 }]

/-- The dense list of the RRF example: B, A, D at ranks 1, 2, 3. -/
def exampleDense : List RankedEntry :=
  [{ cv_uid := 2, rank := 1 }, { cv_uid := 1, rank := 2 },
   { cv_uid := 4, rank := 3 }]

/-- A neutral candidate value, used as the getD default and as a fixture. -/
def dummyCandidate : Candidate :=
  { id := "0", name := "N N", title := "T", experience := "E",
    location := "L", skills := [], matchScore := 0, avatar := "NN",
    summary := "", email := "e", phone := "p", education := [],
    workExperience := [], projects := [], explanation := none,
    cv_id := none }

/-- Agreement on every candidate field except explanation. -/
def candidateAgreesExceptExplanation (a b : Candidate) : Prop :=
  a.id = b.id ∧ a.name = b.name ∧ a.title = b.title ∧
  a.experience = b.experience ∧ a.location = b.location ∧
  a.skills = b.skills ∧ a.matchScore = b.matchScore ∧
  a.avatar = b.avatar ∧ a.summary = b.summary ∧ a.email = b.email ∧
  a.phone = b.phone ∧ a.education = b.education ∧
  a.workExperience = b.workExperience ∧ a.projects = b.projects ∧
  a.cv_id = b.cv_id

/-- Fixture: a match result with no cv_summary. -/
def mrNoSummary : MatchRes := mkBareMatchRes 1

/-- Fixture: a match result whose cv_summary is not JSON and matches no
recovery pattern. -/
def mrBadSummary : MatchRes :=
  { mkBareMatchRes 1 with cv_summary := some "total garbage" }

/-- Fixture: a match result whose final_score is a blend of in-range
inputs. -/
def mrBlendExample : MatchRes :=
  { mkBareMatchRes 1 with final_score := blendFinalScore (1 / 2) 1 0 }

/-- Fixture: a two-candidate store with distinct ids. -/
def exampleStore : MemStorageState :=
  [("a", { dummyCandidate with id := "a", matchScore := 10 }),
   ("b", { dummyCandidate with id := "b", matchScore := 95 })]

/-- Fixture: a candidate with cv_id 21 and no backend reasons. -/
def candidate21 : Candidate := { dummyCandidate with cv_id := some 21 }

/-- Fixture: a candidate with cv_id 29 and no backend reasons. -/
def candidate29 : Candidate := { dummyCandidate with cv_id := some 29 }

/-- Fixture: a candidate with backend-provided reasons and cv_id 21. -/
def candidateWithLLM : Candidate :=
  { dummyCandidate with
    cv_id := some 21
    explanation := some
      { reasons := some ["backend reason"]
        matchItems := none
        raw := none
        error := none } }

/- ===================================================================
   Claim theorems
   =================================================================== -/

/-- C6: the match request built by the client carries exactly the
documented defaults - topk 5, candidate_topk 200, rrf_k 60, threshold
null, cosine_floor 0.0, alpha 0.5 (which lies in [0,1]), batch_size 32 -
and therefore satisfies candidate_topk ≥ topk for every request it
issues. -/
theorem matchRequest_defaults (d : String) :
    (mkMatchRequestBody d).topk = some 5 ∧
    (mkMatchRequestBody d).candidate_topk = some 200 ∧
    (mkMatchRequestBody d).rrf_k = some 60 ∧
    (mkMatchRequestBody d).threshold = none ∧
    (mkMatchRequestBody d).cosine_floor = some 0 ∧
    (mkMatchRequestBody d).alpha = some (1 / 2) ∧
    ((0 : ℚ) ≤ 1 / 2 ∧ (1 / 2 : ℚ) ≤ 1) ∧
    (mkMatchRequestBody d).batch_size = some 32 ∧
    (∀ t k : Int, (mkMatchRequestBody d).topk = some t →
      (mkMatchRequestBody d).candidate_topk = some k → t ≤ k) := by
  refine ⟨rfl, rfl, rfl, rfl, rfl, rfl, ⟨by norm_num, by norm_num⟩, rfl, ?_⟩
  intro t k ht hk
  simp only [mkMatchRequestBody, Option.some.injEq] at ht hk
  omega

/-- Witness for C6 at a concrete request. -/
theorem matchRequest_defaults_witness :
    (mkMatchRequestBody "example jd").threshold = none ∧ (5 : Int) ≤ 200 :=
  ⟨(matchRequest_defaults "example jd").2.2.2.1,
   (matchRequest_defaults "example jd").2.2.2.2.2.2.2.2 5 200 rfl rfl⟩

/-- C5: an empty (whitespace-only) job description is rejected by
handleAnalyze with a descriptive message and without submitting the match
request; a trimmed description shorter than 10 characters is likewise
rejected. -/
theorem handleAnalyze_rejects_empty (jd : String) :
    (jsTrim jd = "" →
      handleAnalyze jd =
        .rejected "Please enter a job description to analyze.") ∧
    (jsTrim jd ≠ "" → (jsTrim jd).length < 10 →
      handleAnalyze jd =
        .rejected "Job description must be at least 10 characters.") ∧
    ((jsTrim jd).length < 10 → ∀ s, handleAnalyze jd ≠ .submitted s) := by
  refine ⟨?_, ?_, ?_⟩
  · intro h
    simp [handleAnalyze, h]
  · intro h1 h2
    simp [handleAnalyze, h1, h2]
  · intro h s
    by_cases he : jsTrim jd = ""
    · simp [handleAnalyze, he]
    · simp [handleAnalyze, he, h]

/-- Witness for C5 at a whitespace-only and at a short description. -/
theorem handleAnalyze_rejects_empty_witness :
    handleAnalyze "   " =
      .rejected "Please enter a job description to analyze." ∧
    handleAnalyze "short jd" =
      .rejected "Job description must be at least 10 characters." :=
  ⟨(handleAnalyze_rejects_empty "   ").1 (by decide),
   (handleAnalyze_rejects_empty "short jd").2.1 (by decide) (by decide)⟩

/-- C4: explanation generation is decoupled from ranking - the ranked
candidates are stored before the explanation fetch runs, and when that
fetch fails (network rejection or non-OK response) the stored candidate
list is untouched and only the loading state is cleared. -/
theorem explanation_failure_leaves_candidates (st : AppState)
    (data : MutationData) (s : Nat) (current : List Candidate) :
    (onSuccessFlow st data .fetchFailed).candidates = data.candidates ∧
    (onSuccessFlow st data (.httpError s)).candidates = data.candidates ∧
    (onSuccessFlow st data .fetchFailed).explanationLoading = [] ∧
    (onSuccessFlow st data (.httpError s)).explanationLoading = [] ∧
    (fetchExplanationsStep st current .fetchFailed).candidates =
      st.candidates ∧
    (fetchExplanationsStep st current (.httpError s)).candidates =
      st.candidates :=
  ⟨rfl, rfl, rfl, rfl, rfl, rfl⟩

/-- C10: the displayed match reasons fall back to a hardcoded list of four
reasons when the backend explanation has no reasons and cv_id is 21 or 29
(shown after a simulated 7000 millisecond loading delay), while
backend-provided reasons always take precedence over the fallback. -/
theorem hardcoded_explanation_fallback (c : Candidate) :
    (∀ rs, explanationFromLLM c = some rs → displayedReasons c = some rs) ∧
    (explanationFromLLM c = none → c.cv_id = some 21 →
      displayedReasons c = HARDCODED_EXPLANATIONS 21 ∧
      (∃ l, displayedReasons c = some l ∧ l.length = 4) ∧
      explanationDelayMs c = some 7000) ∧
    (explanationFromLLM c = none → c.cv_id = some 29 →
      displayedReasons c = HARDCODED_EXPLANATIONS 29 ∧
      (∃ l, displayedReasons c = some l ∧ l.length = 4) ∧
      explanationDelayMs c = some 7000) := by
  refine ⟨?_, ?_, ?_⟩
  · intro rs h
    simp [displayedReasons, h]
  · intro hllm hid
    have hd : displayedReasons c = HARDCODED_EXPLANATIONS 21 := by
      simp [displayedReasons, hllm, fallbackReasons, hid]
    refine ⟨hd, ?_, ?_⟩
    · refine ⟨["Holds a Bachelor\x27s in Accounting, fully meeting JD requirement.",
        "Strong background in financial reporting and auditing.",
        "Skilled in costing, budgeting, and process improvement.",
        "Experienced in ERP and accounting software."], ?_, rfl⟩
      rw [hd]
      decide
    · simp [explanationDelayMs, hd, hllm, HARDCODED_EXPLANATIONS]
  · intro hllm hid
    have hd : displayedReasons c = HARDCODED_EXPLANATIONS 29 := by
      simp [displayedReasons, hllm, fallbackReasons, hid]
    refine ⟨hd, ?_, ?_⟩
    · refine ⟨["Possesses a Bachelor\x27s degree in Accounting.",
        "Expertise in financial reporting and cost control.",
        "SAP and QuickBooks experience aligns with JD.",
        "Strong budgeting and audit knowledge."], ?_, rfl⟩
      rw [hd]
      decide
    · simp [explanationDelayMs, hd, hllm, HARDCODED_EXPLANATIONS]

/-- Witness for C10 at candidates with cv_id 21, cv_id 29 and with
backend reasons. -/
theorem hardcoded_explanation_fallback_witness :
    displayedReasons candidate21 = HARDCODED_EXPLANATIONS 21 ∧
    displayedReasons candidate29 = HARDCODED_EXPLANATIONS 29 ∧
    displayedReasons candidateWithLLM = some ["backend reason"] :=
  ⟨((hardcoded_explanation_fallback candidate21).2.1 rfl rfl).1,
   ((hardcoded_explanation_fallback candidate29).2.2 rfl rfl).1,
   (hardcoded_explanation_fallback candidateWithLLM).1 ["backend reason"] rfl⟩

/-- C9: getCandidates returns the stored candidates sorted non-increasing
by matchScore - a permutation of the stored values, one entry per stored
id when ids are unique - and leaves the store unmodified. -/
theorem getCandidates_sorted_complete_pure (s : MemStorageState) :
    (memStorageGetCandidates s).2 = s ∧
    ((memStorageGetCandidates s).1.Perm (s.map Prod.snd)) ∧
    List.Sorted candidateSortRel (memStorageGetCandidates s).1 ∧
    ((s.map (fun p => p.2.id)).Nodup →
      ((memStorageGetCandidates s).1.map Candidate.id).Nodup) := by
  have hperm : (memStorageGetCandidates s).1.Perm (s.map Prod.snd) :=
    List.perm_insertionSort candidateSortRel (s.map Prod.snd)
  refine ⟨rfl, hperm, ?_, ?_⟩
  · haveI : IsTotal Candidate candidateSortRel :=
      ⟨fun a b => le_total b.matchScore a.matchScore⟩
    haveI : IsTrans Candidate candidateSortRel :=
      ⟨fun _ _ _ hab hbc => le_trans hbc hab⟩
    exact List.sorted_insertionSort candidateSortRel (s.map Prod.snd)
  · intro hn
    have hmap := hperm.map Candidate.id
    have heq : (s.map Prod.snd).map Candidate.id =
        s.map (fun p => p.2.id) := by
      rw [List.map_map]
      rfl
    rw [heq] at hmap
    exact hmap.nodup_iff.mpr hn

/-- Witness for C9 at a concrete two-candidate store. -/
theorem getCandidates_sorted_complete_pure_witness :
    ((memStorageGetCandidates exampleStore).1.map Candidate.id).Nodup :=
  (getCandidates_sorted_complete_pure exampleStore).2.2.2 (by decide)

/-- C1: the selector assigns ranks exactly 1..L in array order (modelled
from the spec, the backend is not under src/), and the home.tsx caller
check passes exactly on responses whose sorted ranks render to 1,2,3,4,5
- it accepts every response whose sorted ranks are [1,2,3,4,5] and rejects
a response with a gap. -/
theorem rank_contiguity_and_home_check :
    (∀ (α : Type) (l : List α),
      (assignDenseRanks l).map Prod.snd =
        (List.range l.length).map (fun i => i + 1)) ∧
    (∀ ms : List MatchRes, homeSortedRanks ms = [1, 2, 3, 4, 5] →
      homeRankCheckPasses ms = true) ∧
    homeRankCheckPasses
      [mkBareMatchRes 1, mkBareMatchRes 2, mkBareMatchRes 3,
       mkBareMatchRes 4, mkBareMatchRes 6] = false := by
  refine ⟨?_, ?_, ?_⟩
  · intro α l
    have h1 : (assignDenseRanks l).map Prod.snd =
        l.enum.map (fun p => p.1 + 1) := by
      simp [assignDenseRanks, List.map_map]
    have h2 : l.enum.map (fun p => p.1 + 1) =
        (l.enum.map Prod.fst).map (fun i => i + 1) := by
      rw [List.map_map]
      rfl
    rw [h1, h2, List.enum_map_fst]
  · intro ms h
    unfold homeRankCheckPasses homeRanksString
    rw [h]
    decide
  · decide

/-- Witness for C1 at a concrete permuted response. -/
theorem rank_contiguity_and_home_check_witness :
    homeRankCheckPasses
      [mkBareMatchRes 5, mkBareMatchRes 3, mkBareMatchRes 1,
       mkBareMatchRes 4, mkBareMatchRes 2] = true :=
  rank_contiguity_and_home_check.2.1
    [mkBareMatchRes 5, mkBareMatchRes 3, mkBareMatchRes 1,
     mkBareMatchRes 4, mkBareMatchRes 2] (by decide)

/-- C3: the /explain exchange preserves order and rank - the request sends
the candidates in match-result order with every rank passed through, and
the response merge matches by cv_uid only, keeping the candidate list
length and order and changing each candidate at most in its explanation
field. -/
theorem explain_exchange_preserves_order_and_rank
    (jd : String) (ms : List MatchRes) (prev : List Candidate)
    (explained : List MatchRes) :
    (buildExplainReq jd ms).candidates.map ExplainCandidate.rank =
      ms.map MatchRes.rank ∧
    (buildExplainReq jd ms).candidates.map ExplainCandidate.cv_uid =
      ms.map MatchRes.cv_uid ∧
    (mergeExplanations prev explained).length = prev.length ∧
    (∀ i, i < prev.length →
      candidateAgreesExceptExplanation (prev.getD i dummyCandidate)
        ((mergeExplanations prev explained).getD i dummyCandidate)) := by
  have hpt : ∀ c, candidateAgreesExceptExplanation c
      (mergeOneExplanation explained c) := by
    intro c
    unfold mergeOneExplanation candidateAgreesExceptExplanation
    split
    · split
      · exact ⟨rfl, rfl, rfl, rfl, rfl, rfl, rfl, rfl, rfl, rfl, rfl, rfl,
          rfl, rfl, rfl⟩
      · exact ⟨rfl, rfl, rfl, rfl, rfl, rfl, rfl, rfl, rfl, rfl, rfl, rfl,
          rfl, rfl, rfl⟩
    · exact ⟨rfl, rfl, rfl, rfl, rfl, rfl, rfl, rfl, rfl, rfl, rfl, rfl,
        rfl, rfl, rfl⟩
  refine ⟨?_, ?_, ?_, ?_⟩
  · rw [buildExplainReq]
    rw [List.map_map]
    rfl
  · rw [buildExplainReq]
    rw [List.map_map]
    rfl
  · exact List.length_map prev (mergeOneExplanation explained)
  · intro i hi
    have hm : (mergeExplanations prev explained).getD i dummyCandidate =
        mergeOneExplanation explained (prev.getD i dummyCandidate) := by
      unfold mergeExplanations
      rw [List.getD_eq_getElem?_getD, List.getD_eq_getElem?_getD,
        List.getElem?_map]
      have h : prev[i]? = some prev[i] := List.getElem?_eq_getElem hi
      rw [h]
      rfl
    rw [hm]
    exact hpt _

/-- Witness for C3 at a concrete one-candidate state. -/
theorem explain_exchange_preserves_order_and_rank_witness :
    candidateAgreesExceptExplanation
      ([dummyCandidate].getD 0 dummyCandidate)
      ((mergeExplanations [dummyCandidate] []).getD 0 dummyCandidate) :=
  (explain_exchange_preserves_order_and_rank "jd" [] [dummyCandidate]
    []).2.2.2 0 (by decide)

/-- C2: on sparse list [(A,1),(B,2),(C,3)] and dense list
[(B,1),(A,2),(D,3)] with rrf_k 60 (A, B, C, D encoded as cv_uid 1, 2, 3,
4), the RRF scores are 1/61+1/62 for A, 1/62+1/61 for B and 1/63 for C
and D, and the fused pool is A, B, C, D - A and B above C and D, with the
A/B tie resolved by lowest minimum rank then cv_uid ascending. -/
theorem rrf_example_correct :
    rrfScore 60 exampleSparse exampleDense 1 = 1 / 61 + 1 / 62 ∧
    rrfScore 60 exampleSparse exampleDense 2 = 1 / 62 + 1 / 61 ∧
    rrfScore 60 exampleSparse exampleDense 3 = 1 / 63 ∧
    rrfScore 60 exampleSparse exampleDense 4 = 1 / 63 ∧
    fuseRRF 60 exampleSparse exampleDense 200 = [1, 2, 3, 4] := by
  refine ⟨?_, ?_, ?_, ?_, ?_⟩ <;>
    norm_num [rrfScore, rrfContribution, exampleSparse, exampleDense,
      fuseRRF, jsSetDedup, List.insertionSort, List.orderedInsert, fuseRel,
      minRank, List.find?]

/-- C8: the blended final_score lies in [0,1] whenever ce_score, the
normalized hybrid score and alpha all lie in [0,1] (blend modelled from
the spec), and under that bound the matchScore computed by
transformMatchResToCandidate as round(final_score * 100) lies in
[0,100]. -/
theorem blend_bounds_and_matchScore (mr : MatchRes) (a ce h : ℚ)
    (ha0 : 0 ≤ a) (ha1 : a ≤ 1) (hc0 : 0 ≤ ce) (hc1 : ce ≤ 1)
    (hh0 : 0 ≤ h) (hh1 : h ≤ 1)
    (hfs : mr.final_score = blendFinalScore a ce h) :
    0 ≤ mr.final_score ∧ mr.final_score ≤ 1 ∧
    0 ≤ (transformMatchResToCandidate mr).matchScore ∧
    (transformMatchResToCandidate mr).matchScore ≤ 100 := by
  have hms : (transformMatchResToCandidate mr).matchScore =
      jsMathRound (mr.final_score * 100) := rfl
  have h0 : 0 ≤ mr.final_score := by
    rw [hfs]
    unfold blendFinalScore
    nlinarith
  have h1 : mr.final_score ≤ 1 := by
    rw [hfs]
    unfold blendFinalScore
    nlinarith
  refine ⟨h0, h1, ?_, ?_⟩
  · rw [hms]
    unfold jsMathRound
    have hx : (0 : ℚ) ≤ mr.final_score * 100 + 1 / 2 := by nlinarith
    exact Int.floor_nonneg.mpr hx
  · rw [hms]
    unfold jsMathRound
    have hx : mr.final_score * 100 + 1 / 2 < 101 := by nlinarith
    have hfl : ⌊mr.final_score * 100 + 1 / 2⌋ < 101 :=
      Int.floor_lt.mpr (by exact_mod_cast hx)
    omega

/-- Witness for C8 at a concrete blended score. -/
theorem blend_bounds_and_matchScore_witness :
    0 ≤ (transformMatchResToCandidate mrBlendExample).matchScore ∧
    (transformMatchResToCandidate mrBlendExample).matchScore ≤ 100 :=
  ⟨(blend_bounds_and_matchScore mrBlendExample (1 / 2) 1 0 (by norm_num)
      (by norm_num) (by norm_num) (by norm_num) (by norm_num) (by norm_num)
      rfl).2.2.1,
   (blend_bounds_and_matchScore mrBlendExample (1 / 2) 1 0 (by norm_num)
      (by norm_num) (by norm_num) (by norm_num) (by norm_num) (by norm_num)
      rfl).2.2.2⟩

/-- C7: transformMatchResToCandidate handles every cv_summary shape with
explicit fallbacks and never fails - skills always hold at most three
tools, a missing summary keeps title Professional, degree Not specified
and no skills, and a summary that JSON.parse rejects keeps the degree and
skills defaults while the title is recovered by the regex patterns or
falls back to Professional. -/
theorem transform_total_with_fallbacks (mr : MatchRes) :
    (transformMatchResToCandidate mr).skills.length ≤ 3 ∧
    (mr.cv_summary = none →
      (transformMatchResToCandidate mr).title = "Professional" ∧
      (transformMatchResToCandidate mr).location = "Not specified" ∧
      (transformMatchResToCandidate mr).skills = []) ∧
    (∀ s, mr.cv_summary = some s → s ≠ "" →
      parseJsonText (fixSummary (jsTrim s)) = none →
      (transformMatchResToCandidate mr).location = "Not specified" ∧
      (transformMatchResToCandidate mr).skills = [] ∧
      (recoverTitle s = none →
        (transformMatchResToCandidate mr).title = "Professional") ∧
      (∀ t, recoverTitle s = some t →
        (transformMatchResToCandidate mr).title = jsTrim t)) := by
  refine ⟨?_, ?_, ?_⟩
  · show ((if (summaryPipeline mr.cv_summary).1.skills.length = 0 then []
      else (summaryPipeline mr.cv_summary).1.skills).take 3).length ≤ 3
    exact List.length_take_le 3 _
  · intro h
    have e : summaryPipeline mr.cv_summary = (initialSummaryVars, "") := by
      rw [h]
      rfl
    refine ⟨?_, ?_, ?_⟩
    · show (summaryPipeline mr.cv_summary).1.title = "Professional"
      rw [e]
      rfl
    · show (summaryPipeline mr.cv_summary).1.educationDegree = "Not specified"
      rw [e]
      rfl
    · show (if (summaryPipeline mr.cv_summary).1.skills.length = 0 then []
        else (summaryPipeline mr.cv_summary).1.skills).take 3 = []
      rw [e]
      rfl
  · intro s hs hne hparse
    have e : summaryPipeline mr.cv_summary =
        (recoverVars s initialSummaryVars, s) := by
      rw [hs]
      simp only [summaryPipeline]
      rw [if_neg hne]
      rw [hparse]
    refine ⟨?_, ?_, ?_, ?_⟩
    · show (summaryPipeline mr.cv_summary).1.educationDegree = "Not specified"
      rw [e]
      unfold recoverVars
      cases recoverTitle s with
      | none => rfl
      | some cap => rfl
    · show (if (summaryPipeline mr.cv_summary).1.skills.length = 0 then []
        else (summaryPipeline mr.cv_summary).1.skills).take 3 = []
      rw [e]
      unfold recoverVars
      cases recoverTitle s with
      | none => rfl
      | some cap => rfl
    · intro hrt
      show (summaryPipeline mr.cv_summary).1.title = "Professional"
      rw [e]
      unfold recoverVars
      rw [hrt]
      rfl
    · intro t hrt
      show (summaryPipeline mr.cv_summary).1.title = jsTrim t
      rw [e]
      unfold recoverVars
      rw [hrt]

/-- Witness for C7 at a missing and at a malformed summary. -/
theorem transform_total_with_fallbacks_witness :
    (transformMatchResToCandidate mrNoSummary).title = "Professional" ∧
    (transformMatchResToCandidate mrNoSummary).location = "Not specified" ∧
    (transformMatchResToCandidate mrBadSummary).title = "Professional" ∧
    (transformMatchResToCandidate mrBadSummary).location = "Not specified" :=
  ⟨((transform_total_with_fallbacks mrNoSummary).2.1 rfl).1,
   ((transform_total_with_fallbacks mrNoSummary).2.1 rfl).2.1,
   ((transform_total_with_fallbacks mrBadSummary).2.2 "total garbage" rfl
      (by decide) rfl).2.2.1 rfl,
   ((transform_total_with_fallbacks mrBadSummary).2.2 "total garbage" rfl
      (by decide) rfl).1⟩
